import Mathlib

/-!
Verification of the WhatsApp support agent backend (rag.js: the RAG search
module, the Gemini client, the WhatsApp lifecycle service and the message
store).  JavaScript numbers are idealized as real numbers; external effects
(Supabase queries, HTTP fetch, the WhatsApp transport) are modelled as
environment records describing their observable outcomes.
-/

namespace WaModel

/-! ### Cosine similarity (rag.js, cosineSim) -/

/-- The epsilon `1e-10` added to the denominator in `cosineSim`. -/
noncomputable def cosEps : ℝ := 1 / 10000000000

/-- `cosineSim(a, b)` from rag.js.  A missing (`null`/`undefined`) vector is
`none`; the guard `!a || !b || a.length !== b.length` returns `-1`, otherwise
the loop accumulates `dot`, `na`, `nb` over the common indices and the result
is `dot / (Math.sqrt(na) * Math.sqrt(nb) + 1e-10)`. -/
noncomputable def cosineSim : Option (List ℝ) → Option (List ℝ) → ℝ
  | some a, some b =>
    if a.length = b.length then
      (List.zipWith (fun x y => x * y) a b).sum /
        (Real.sqrt ((a.map (fun x => x * x)).sum) *
          Real.sqrt ((b.map (fun x => x * x)).sum) + cosEps)
    else -1
  | _, _ => -1

theorem cosEps_pos : (0 : ℝ) < cosEps := by norm_num [cosEps]

theorem cosineSim_none_left (b : Option (List ℝ)) : cosineSim none b = -1 := by
  cases b <;> rfl

theorem cosineSim_none_right (a : Option (List ℝ)) : cosineSim a none = -1 := by
  cases a <;> rfl

theorem cosineSim_mismatch (a b : List ℝ) (h : a.length ≠ b.length) :
    cosineSim (some a) (some b) = -1 := by
  simp only [cosineSim, if_neg h]

theorem cosineSim_comm (a b : Option (List ℝ)) : cosineSim a b = cosineSim b a := by
  match a, b with
  | none, none => rfl
  | none, some b => rfl
  | some a, none => rfl
  | some a, some b =>
    simp only [cosineSim]
    by_cases h : a.length = b.length
    · rw [if_pos h, if_pos h.symm,
        List.zipWith_comm_of_comm (fun x y => x * y) (fun x y => mul_comm x y) a b,
        mul_comm (Real.sqrt ((a.map (fun x => x * x)).sum))]
    · rw [if_neg h, if_neg (fun hh => h hh.symm)]

theorem cosineSim_self (v : List ℝ) (h : (v.map (fun x => x * x)).sum = 1) :
    cosineSim (some v) (some v) = 1 / (1 + cosEps) := by
  simp only [cosineSim, if_pos rfl, if_true]
  rw [List.zipWith_same, h, Real.sqrt_one, one_mul]

theorem cosineSim_denom_pos (a b : List ℝ) :
    0 < Real.sqrt ((a.map (fun x => x * x)).sum) *
        Real.sqrt ((b.map (fun x => x * x)).sum) + cosEps :=
  add_pos_of_nonneg_of_pos (mul_nonneg (Real.sqrt_nonneg _) (Real.sqrt_nonneg _)) cosEps_pos

theorem one_div_one_add_cosEps_lt_one : 1 / (1 + cosEps) < 1 := by
  rw [div_lt_one (by norm_num [cosEps])]
  norm_num [cosEps]

theorem one_sub_cosEps_lt : 1 - cosEps < 1 / (1 + cosEps) := by
  rw [lt_div_iff₀ (by norm_num [cosEps] : (0:ℝ) < 1 + cosEps)]
  norm_num [cosEps]

/-- C6: the claim as stated is refuted at the normalized vector `[1]`:
`cosineSim([1],[1])` equals `1 / (1 + 1e-10)`, which is strictly below `1`,
so the self-similarity of a unit vector is not `1.0`. -/
theorem cosineSim_self_normalized_ne_one :
    (([1] : List ℝ).map (fun x => x * x)).sum = 1 ∧
      cosineSim (some ([1] : List ℝ)) (some [1]) ≠ 1 := by
  constructor
  · simp
  · rw [cosineSim_self [1] (by simp)]
    exact ne_of_lt one_div_one_add_cosEps_lt_one

/-- C6 (amended): `cosineSim` is symmetric; for a normalized vector `v` the
self-similarity equals `1 / (1 + ε)`, which lies strictly between `1 - ε`
and `1` (but is not exactly `1`); mismatched lengths and missing vectors
yield exactly the sentinel `-1` (hence a score `≤ -1`); and the denominator
is strictly positive, so no division by zero occurs. -/
theorem cosineSim_spec :
    (∀ a b : Option (List ℝ), cosineSim a b = cosineSim b a) ∧
    (∀ v : List ℝ, (v.map (fun x => x * x)).sum = 1 →
      cosineSim (some v) (some v) = 1 / (1 + cosEps) ∧
        1 - cosEps < cosineSim (some v) (some v) ∧ cosineSim (some v) (some v) < 1) ∧
    (∀ a b : List ℝ, a.length ≠ b.length → cosineSim (some a) (some b) ≤ -1) ∧
    (∀ b, cosineSim none b = -1) ∧ (∀ a, cosineSim a none = -1) ∧
    (∀ a b : List ℝ,
      0 < Real.sqrt ((a.map (fun x => x * x)).sum) *
          Real.sqrt ((b.map (fun x => x * x)).sum) + cosEps) := by
  refine ⟨cosineSim_comm, ?_, ?_, cosineSim_none_left, cosineSim_none_right,
    cosineSim_denom_pos⟩
  · intro v h
    have hv := cosineSim_self v h
    exact ⟨hv, by rw [hv]; exact one_sub_cosEps_lt, by rw [hv]; exact one_div_one_add_cosEps_lt_one⟩
  · intro a b h
    rw [cosineSim_mismatch a b h]

/-- Concrete instantiation of `cosineSim_spec`: the unit vector `[1]` and a
length-mismatched pair. -/
theorem cosineSim_spec_witness :
    cosineSim (some ([1] : List ℝ)) (some [1]) = 1 / (1 + cosEps) ∧
      cosineSim (some ([1] : List ℝ)) (some [0, 0]) ≤ -1 := by
  refine ⟨(cosineSim_spec.2.1 [1] (by simp)).1, cosineSim_spec.2.2.1 [1] [0, 0] (by simp)⟩

/-! ### Knowledge-base search (rag.js, searchKB) -/

/-- JavaScript string truthiness: `null`/`undefined` and the empty string are
falsy.  Normalizes a nullable string so that falsy values become `none`. -/
def jsStr : Option String → Option String
  | some s => if s = "" then none else some s
  | none => none

/-- JavaScript `s || d` on a nullable string field: the default wins when the
field is missing or the empty string. -/
def orElseStr (s : Option String) (d : String) : String :=
  match jsStr s with
  | some v => v
  | none => d

/-- A search result as built by `searchKB` (the JSON `metadata` passthrough
field carries no claim-relevant structure and is left out). -/
structure KbMatch where
  id : String
  text : String
  title : String
  wa_account_id : Option String
  score : ℝ
  chunk_index : Nat

/-- A row returned by the `search_kb_chunks` RPC (see
supabase_kb_search_function.sql for its column list). -/
structure RpcRow where
  id : String
  text : String
  chunk_index : Nat
  title : Option String
  wa_account_id : Option String
  similarity : ℝ

/-- Mapping of one RPC row (rag.js lines 75-83).  RPC rows always carry a
numeric `similarity` column and no `score` column, so the JavaScript chain
`r.similarity || r.score || 0` evaluates to `r.similarity` (when the
similarity is `0`, the chain still yields `0`). -/
def rpcToMatch (r : RpcRow) : KbMatch :=
  { id := r.id, text := r.text, title := orElseStr r.title "Unknown",
    wa_account_id := jsStr r.wa_account_id, score := r.similarity,
    chunk_index := r.chunk_index }

/-- The `embedding` column of a `kb_chunks` row as seen by the fallback path:
either already an array, or a string together with its recorded `JSON.parse`
outcome (an array, or a failure / non-array value), or some other value. -/
inductive EmbField where
  | arr (v : List ℝ)
  | strParsed (v : List ℝ)
  | strBad
  | other

/-- The parse-or-reject step of rag.js lines 128-140: a string embedding is
parsed (`null` on failure), and any non-array outcome is rejected. -/
def parseEmbedding : EmbField → Option (List ℝ)
  | .arr v => some v
  | .strParsed v => some v
  | .strBad => none
  | .other => none

/-- The joined `kb_sources` record selected with each chunk. -/
structure KbSourceRec where
  title : Option String
  wa_account_id : Option String

/-- A `kb_chunks` row as selected by the fallback query. -/
structure ChunkRow where
  id : String
  text : String
  chunk_index : Nat
  embedding : EmbField
  kb_sources : Option KbSourceRec

/-- One step of the fallback scoring map (rag.js lines 126-152): parse the
embedding, return `null` when it is not an array of the query length,
otherwise score the chunk with `cosineSim`. -/
noncomputable def scoreChunk (queryEmbedding : List ℝ) (c : ChunkRow) : Option KbMatch :=
  match parseEmbedding c.embedding with
  | none => none
  | some embedding =>
    if embedding.length = queryEmbedding.length then
      some { id := c.id, text := c.text,
             title := orElseStr (c.kb_sources.bind (fun s => s.title)) "Unknown",
             wa_account_id := jsStr (c.kb_sources.bind (fun s => s.wa_account_id)),
             score := cosineSim (some queryEmbedding) (some embedding),
             chunk_index := c.chunk_index }
    else none

/-- The comparator `(a, b) => b.score - a.score` sorts matches by descending
score; modelled as the descending order on the score field. -/
def byScoreDesc (x y : KbMatch) : Prop := y.score ≤ x.score

noncomputable instance : DecidableRel byScoreDesc :=
  fun x y => Real.decidableLE y.score x.score

instance : IsTotal KbMatch byScoreDesc := ⟨fun a b => le_total b.score a.score⟩

instance : IsTrans KbMatch byScoreDesc := ⟨fun _ _ _ h1 h2 => le_trans h2 h1⟩

/-- A WhatsApp account row as returned by `getWhatsAppAccountById` (which
never rejects: it catches internally and returns `null`). -/
structure AccountRec where
  org_id : Option String

/-- Observable outcomes of the external calls made by `searchKB`.
`getAccount` and `embedText` never reject in the source (both catch
internally and return `null` resp. `[]`), so they are plain functions; the
two Supabase queries inside the try block may reject (`Except.error`),
return an error object / non-array value (`none`), or return rows.
`chunkRows` holds all ready, in-scope chunk rows in database order; the
`.limit(500)` cap is applied by `searchKB` itself. -/
structure KBEnv where
  supabaseConfigured : Bool
  getAccount : String → Option AccountRec
  embedText : String → List ℝ
  rpcResult : Except Unit (Option (List RpcRow))
  chunkRows : Except Unit (Option (List ChunkRow))

/-- The `.limit(500)` hard cap on the fallback chunk fetch. -/
def kbFetchLimit : Nat := 500

/-- Org resolution (rag.js lines 38-48): when no truthy `orgId` was passed
and a truthy `waAccountId` is available, look the account up and take its
`org_id`; all falsy values (missing, empty string) resolve to `none`. -/
def resolveOrgId (env : KBEnv) (waAccountId orgId : Option String) : Option String :=
  match jsStr orgId, jsStr waAccountId with
  | none, some wa => jsStr ((env.getAccount wa).bind (fun a => a.org_id))
  | o, _ => o

/-- The wa-account post-filter on RPC rows (rag.js lines 71-73). -/
def rpcFilter (waAccountId : Option String) (rows : List RpcRow) : List RpcRow :=
  match jsStr waAccountId with
  | some wa => rows.filter (fun r => r.wa_account_id == some wa)
  | none => rows

/-- The RPC success path (rag.js lines 69-84): post-filter, truncate to
`topK`, map rows to matches. -/
def rpcPath (waAccountId : Option String) (topK : Nat) (rows : List RpcRow) : List KbMatch :=
  ((rpcFilter waAccountId rows).take topK).map rpcToMatch

/-- The in-memory fallback path (rag.js lines 120-157) applied to the
(capped) fetched chunk rows: empty fetch returns `[]`, otherwise score,
drop non-positive scores, sort descending, truncate to `topK`. -/
noncomputable def fallbackPath (queryEmbedding : List ℝ) (topK : Nat)
    (rows : List ChunkRow) : List KbMatch :=
  if (rows.take kbFetchLimit).isEmpty then []
  else
    (List.insertionSort byScoreDesc
      (((rows.take kbFetchLimit).filterMap (scoreChunk queryEmbedding)).filter
        (fun m => decide (0 < m.score)))).take topK

/-- The try block of `searchKB` (rag.js lines 57-162): attempt the RPC, fall
back to the in-memory path, and turn every rejection into `[]`. -/
noncomputable def searchKBTry (env : KBEnv) (queryEmbedding : List ℝ) (topK : Nat)
    (waAccountId : Option String) : List KbMatch :=
  match env.rpcResult with
  | Except.error _ => []
  | Except.ok (some rpcResults) => rpcPath waAccountId topK rpcResults
  | Except.ok none =>
    match env.chunkRows with
    | Except.error _ => []
    | Except.ok none => []
    | Except.ok (some rows) => fallbackPath queryEmbedding topK rows

/-- `searchKB(query, { topK, waAccountId, orgId })` from rag.js, as a function
of the external-call outcomes recorded in `env`: guard clauses first
(client configured, org resolvable, non-empty query embedding), then the
try block. -/
noncomputable def searchKB (env : KBEnv) (query : String) (topK : Nat)
    (waAccountId orgId : Option String) : List KbMatch :=
  if env.supabaseConfigured = false then []
  else
    match resolveOrgId env waAccountId orgId with
    | none => []
    | some _ =>
      if (env.embedText query).length = 0 then []
      else searchKBTry env (env.embedText query) topK waAccountId

theorem rpcPath_length_le (waAccountId : Option String) (topK : Nat)
    (rows : List RpcRow) : (rpcPath waAccountId topK rows).length ≤ topK := by
  simp only [rpcPath, List.length_map, List.length_take]
  omega

theorem fallbackPath_length_le (queryEmbedding : List ℝ) (topK : Nat)
    (rows : List ChunkRow) : (fallbackPath queryEmbedding topK rows).length ≤ topK := by
  unfold fallbackPath
  split
  · simp
  · simp only [List.length_take]
    omega

theorem searchKBTry_length_le (env : KBEnv) (queryEmbedding : List ℝ) (topK : Nat)
    (waAccountId : Option String) :
    (searchKBTry env queryEmbedding topK waAccountId).length ≤ topK := by
  unfold searchKBTry
  rcases env.rpcResult with _ | _ | rpcResults
  · simp
  · rcases env.chunkRows with _ | _ | rows
    · simp
    · simp
    · exact fallbackPath_length_le queryEmbedding topK rows
  · exact rpcPath_length_le waAccountId topK rpcResults

theorem searchKB_length_le (env : KBEnv) (query : String) (topK : Nat)
    (waAccountId orgId : Option String) :
    (searchKB env query topK waAccountId orgId).length ≤ topK := by
  unfold searchKB
  split
  · simp
  · split
    · simp
    · split
      · simp
      · exact searchKBTry_length_le env (env.embedText query) topK waAccountId

theorem rpcPath_sorted (waAccountId : Option String) (topK : Nat)
    (rows : List RpcRow)
    (hrows : List.Sorted (fun a b : RpcRow => b.similarity ≤ a.similarity) rows) :
    List.Sorted byScoreDesc (rpcPath waAccountId topK rows) := by
  refine List.pairwise_map.mpr ?_
  refine List.Pairwise.sublist ((List.take_sublist _ _).trans ?_) hrows
  unfold rpcFilter
  split
  · exact List.filter_sublist _
  · exact List.Sublist.refl _

theorem fallbackPath_sorted (queryEmbedding : List ℝ) (topK : Nat)
    (rows : List ChunkRow) :
    List.Sorted byScoreDesc (fallbackPath queryEmbedding topK rows) := by
  unfold fallbackPath
  split
  · exact List.sorted_nil
  · exact List.Pairwise.sublist (List.take_sublist _ _)
      (List.sorted_insertionSort byScoreDesc _)

theorem searchKBTry_sorted (env : KBEnv) (queryEmbedding : List ℝ) (topK : Nat)
    (waAccountId : Option String)
    (hrpc : ∀ rows, env.rpcResult = Except.ok (some rows) →
      List.Sorted (fun a b : RpcRow => b.similarity ≤ a.similarity) rows) :
    List.Sorted byScoreDesc (searchKBTry env queryEmbedding topK waAccountId) := by
  unfold searchKBTry
  rcases h : env.rpcResult with _ | _ | rpcResults
  · exact List.sorted_nil
  · rcases env.chunkRows with _ | _ | rows
    · exact List.sorted_nil
    · exact List.sorted_nil
    · exact fallbackPath_sorted queryEmbedding topK rows
  · exact rpcPath_sorted waAccountId topK rpcResults (hrpc rpcResults h)

theorem searchKB_sorted_desc (env : KBEnv) (query : String) (topK : Nat)
    (waAccountId orgId : Option String)
    (hrpc : ∀ rows, env.rpcResult = Except.ok (some rows) →
      List.Sorted (fun a b : RpcRow => b.similarity ≤ a.similarity) rows) :
    List.Sorted byScoreDesc (searchKB env query topK waAccountId orgId) := by
  unfold searchKB
  split
  · exact List.sorted_nil
  · split
    · exact List.sorted_nil
    · split
      · exact List.sorted_nil
      · exact searchKBTry_sorted env (env.embedText query) topK waAccountId hrpc

theorem fallbackPath_mem (queryEmbedding : List ℝ) (topK : Nat)
    (rows : List ChunkRow) :
    ∀ m ∈ fallbackPath queryEmbedding topK rows,
      0 < m.score ∧
        ∃ c ∈ rows.take kbFetchLimit, scoreChunk queryEmbedding c = some m := by
  unfold fallbackPath
  split
  · simp
  · intro m hm
    have hm1 := List.mem_of_mem_take hm
    have hm2 := (List.perm_insertionSort byScoreDesc _).mem_iff.mp hm1
    have hm3 := List.mem_filter.mp hm2
    refine ⟨of_decide_eq_true hm3.2, ?_⟩
    obtain ⟨c, hc, hsc⟩ := List.mem_filterMap.mp hm3.1
    exact ⟨c, hc, hsc⟩

theorem searchKB_fallback_mem (env : KBEnv) (query : String) (topK : Nat)
    (waAccountId orgId : Option String) (rows : List ChunkRow)
    (h1 : env.rpcResult = Except.ok none)
    (h2 : env.chunkRows = Except.ok (some rows)) :
    ∀ m ∈ searchKB env query topK waAccountId orgId,
      0 < m.score ∧
        ∃ c ∈ rows.take kbFetchLimit, scoreChunk (env.embedText query) c = some m := by
  unfold searchKB
  split
  · simp
  · split
    · simp
    · split
      · simp
      · unfold searchKBTry
        rw [h1, h2]
        exact fallbackPath_mem (env.embedText query) topK rows

/-- C4: with `topK = 3`, `searchKB` returns at most 3 results; the result
list is sorted by descending score (on the RPC path this rests on the rows
arriving sorted by descending similarity, which the `search_kb_chunks` SQL
function guarantees via its `ORDER BY` clause); and on the in-memory
fallback path every returned match has a strictly positive cosine score and
arises from scoring one of the first 500 fetched chunks — unparsable,
non-array or length-mismatched embeddings and non-positive scores are
discarded, the survivors sorted descending and truncated to `topK`. -/
theorem searchKB_topK_sorted (env : KBEnv) (query : String)
    (waAccountId orgId : Option String)
    (hrpc : ∀ rows, env.rpcResult = Except.ok (some rows) →
      List.Sorted (fun a b : RpcRow => b.similarity ≤ a.similarity) rows) :
    (searchKB env query 3 waAccountId orgId).length ≤ 3 ∧
    List.Sorted byScoreDesc (searchKB env query 3 waAccountId orgId) ∧
    (∀ rows, env.rpcResult = Except.ok none → env.chunkRows = Except.ok (some rows) →
      ∀ m ∈ searchKB env query 3 waAccountId orgId,
        0 < m.score ∧
          ∃ c ∈ rows.take kbFetchLimit, scoreChunk (env.embedText query) c = some m) :=
  ⟨searchKB_length_le env query 3 waAccountId orgId,
   searchKB_sorted_desc env query 3 waAccountId orgId hrpc,
   fun rows h1 h2 => searchKB_fallback_mem env query 3 waAccountId orgId rows h1 h2⟩

/-- A concrete environment whose RPC succeeds with an empty row set. -/
def envRpcOkW : KBEnv :=
  { supabaseConfigured := true, getAccount := fun _ => none,
    embedText := fun _ => [1], rpcResult := Except.ok (some []),
    chunkRows := Except.ok none }

/-- Concrete instantiation of `searchKB_topK_sorted` at `envRpcOkW`. -/
theorem searchKB_topK_sorted_witness :
    (searchKB envRpcOkW "q" 3 none (some "org")).length ≤ 3 ∧
    List.Sorted byScoreDesc (searchKB envRpcOkW "q" 3 none (some "org")) ∧
    (∀ rows, envRpcOkW.rpcResult = Except.ok none →
      envRpcOkW.chunkRows = Except.ok (some rows) →
      ∀ m ∈ searchKB envRpcOkW "q" 3 none (some "org"),
        0 < m.score ∧
          ∃ c ∈ rows.take kbFetchLimit,
            scoreChunk (envRpcOkW.embedText "q") c = some m) := by
  refine searchKB_topK_sorted envRpcOkW "q" none (some "org") ?_
  intro rows h
  injection h with h1
  injection h1 with h2
  rw [← h2]
  exact List.sorted_nil

/-- C5: `searchKB` returns the empty list on every guard failure and every
exception inside the search body: missing Supabase client, unresolvable
organization scope, failed query-embedding generation, a rejected RPC call,
and — on the fallback path — a rejected or failed chunk fetch or an empty
chunk set. -/
theorem searchKB_empty_guards (env : KBEnv) (query : String) (topK : Nat)
    (waAccountId orgId : Option String) :
    (env.supabaseConfigured = false → searchKB env query topK waAccountId orgId = []) ∧
    (resolveOrgId env waAccountId orgId = none →
      searchKB env query topK waAccountId orgId = []) ∧
    (env.embedText query = [] → searchKB env query topK waAccountId orgId = []) ∧
    (env.rpcResult = Except.error () → searchKB env query topK waAccountId orgId = []) ∧
    (env.rpcResult = Except.ok none → env.chunkRows = Except.error () →
      searchKB env query topK waAccountId orgId = []) ∧
    (env.rpcResult = Except.ok none → env.chunkRows = Except.ok none →
      searchKB env query topK waAccountId orgId = []) ∧
    (env.rpcResult = Except.ok none → env.chunkRows = Except.ok (some []) →
      searchKB env query topK waAccountId orgId = []) := by
  have hTry : ∀ (h : env.rpcResult = Except.ok none) (qe : List ℝ),
      env.chunkRows = Except.error () ∨ env.chunkRows = Except.ok none ∨
        env.chunkRows = Except.ok (some []) →
      searchKBTry env qe topK waAccountId = [] := by
    intro h qe h'
    unfold searchKBTry
    rw [h]
    rcases h' with h' | h' | h'
    · rw [h']
    · rw [h']
    · rw [h']
      simp [fallbackPath]
  refine ⟨fun h => ?_, fun h => ?_, fun h => ?_, fun h => ?_,
    fun h h' => ?_, fun h h' => ?_, fun h h' => ?_⟩
  · simp [searchKB, h]
  · unfold searchKB
    split
    · rfl
    · rw [h]
  · unfold searchKB
    split
    · rfl
    · split
      · rfl
      · simp [h]
  · unfold searchKB
    split
    · rfl
    · split
      · rfl
      · split
        · rfl
        · unfold searchKBTry
          rw [h]
  · unfold searchKB
    split
    · rfl
    · split
      · rfl
      · split
        · rfl
        · exact hTry h _ (Or.inl h')
  · unfold searchKB
    split
    · rfl
    · split
      · rfl
      · split
        · rfl
        · exact hTry h _ (Or.inr (Or.inl h'))
  · unfold searchKB
    split
    · rfl
    · split
      · rfl
      · split
        · rfl
        · exact hTry h _ (Or.inr (Or.inr h'))

/-- A concrete environment with no Supabase client configured. -/
def envNoSupabaseW : KBEnv :=
  { supabaseConfigured := false, getAccount := fun _ => none,
    embedText := fun _ => [], rpcResult := Except.ok none,
    chunkRows := Except.ok none }

/-- Concrete instantiation of `searchKB_empty_guards` at `envNoSupabaseW`. -/
theorem searchKB_empty_guards_witness :
    searchKB envNoSupabaseW "q" 3 none none = [] :=
  (searchKB_empty_guards envNoSupabaseW "q" 3 none none).1 rfl

/-! ### Reply generation (gemini.js, generateAIReply) -/

/-- Model of JavaScript `String.prototype.trim()`: strip leading and
trailing whitespace.  Structurally recursive (unlike `String.trim`, which
is defined through well-founded recursion), so concrete instances reduce
inside `decide` / `rfl` proofs. -/
def jsTrim (s : String) : String :=
  String.mk (((s.data.dropWhile Char.isWhitespace).reverse.dropWhile
    Char.isWhitespace).reverse)

/-- Model of JavaScript `String.prototype.toLowerCase()`. -/
def jsToLower (s : String) : String := String.mk (s.data.map Char.toLower)

/-- JavaScript `Array.prototype.join(" ")`. -/
def joinSpace : List String → String
  | [] => ""
  | [s] => s
  | s :: rest => s ++ " " ++ joinSpace rest

/-- Observable outcome of the generation fetch: the transport may reject
(`fetch` or `response.json()` throws), the response may be non-2xx
(`response.ok` false), or it succeeds and the optional chain
`data?.candidates?.[0]?.content?.parts` is either absent (`none`, which
short-circuits the whole chain to `undefined`) or a list of parts, each
with an optional `text` field. -/
inductive GenFetchOutcome where
  | reject
  | httpError
  | ok (parts : Option (List (Option String)))

set_option linter.unusedVariables false in
/-- `generateAIReply({ userMessage, kbMatches })` from gemini.js, as a
function of the fetch outcome.  The prompt assembled from `userMessage` and
`kbMatches` is consumed only by the external fetch, whose observable outcome
is given.  The catch arm and the non-2xx arm return their fixed error
strings; a missing parts chain or an empty joined-and-trimmed output falls
back to the fixed rephrase string. -/
def generateAIReply (outcome : GenFetchOutcome) (userMessage : String)
    (kbMatches : List KbMatch) : String :=
  match outcome with
  | .reject => "AI Error: Something went wrong while generating a reply."
  | .httpError => "AI Error: Unable to generate response."
  | .ok none => "I\x27m not sure, could you rephrase?"
  | .ok (some parts) =>
    if jsTrim (joinSpace (parts.map (fun p => p.getD ""))) = "" then
      "I\x27m not sure, could you rephrase?"
    else jsTrim (joinSpace (parts.map (fun p => p.getD "")))

/-- C3: `generateAIReply` is total and never returns the empty string: a
transport rejection and a non-2xx response yield their fixed user-safe
error strings, and an empty generation result (absent parts chain, or parts
whose joined and trimmed text is empty) is replaced by the fixed rephrase
fallback.  All of this holds for every userMessage and every kbMatches
list, the empty list included. -/
theorem generateAIReply_never_empty (outcome : GenFetchOutcome)
    (userMessage : String) (kbMatches : List KbMatch) :
    generateAIReply outcome userMessage kbMatches ≠ "" ∧
    (outcome = .reject →
      generateAIReply outcome userMessage kbMatches =
        "AI Error: Something went wrong while generating a reply.") ∧
    (outcome = .httpError →
      generateAIReply outcome userMessage kbMatches =
        "AI Error: Unable to generate response.") ∧
    (∀ parts, outcome = .ok parts →
      jsTrim (joinSpace ((parts.getD []).map (fun p => p.getD ""))) = "" →
      generateAIReply outcome userMessage kbMatches =
        "I\x27m not sure, could you rephrase?") := by
  refine ⟨?_, ?_, ?_, ?_⟩
  · cases outcome with
    | reject =>
      simp only [generateAIReply]
      decide
    | httpError =>
      simp only [generateAIReply]
      decide
    | ok parts =>
      cases parts with
      | none =>
        simp only [generateAIReply]
        decide
      | some ps =>
        simp only [generateAIReply]
        split
        · decide
        · rename_i hout
          exact hout
  · intro h
    subst h
    rfl
  · intro h
    subst h
    rfl
  · intro parts h htrim
    subst h
    cases parts with
    | none => rfl
    | some ps =>
      simp only [Option.getD_some] at htrim
      simp only [generateAIReply, if_pos htrim]

/-- Concrete instantiation of `generateAIReply_never_empty`: a transport
rejection and an empty parts list, with no knowledge matches. -/
theorem generateAIReply_never_empty_witness :
    generateAIReply .reject "hello" [] =
      "AI Error: Something went wrong while generating a reply." ∧
    generateAIReply (.ok (some [])) "hello" [] = "I\x27m not sure, could you rephrase?" ∧
    generateAIReply (.ok (some [])) "hello" [] ≠ "" :=
  ⟨(generateAIReply_never_empty .reject "hello" []).2.1 rfl,
   (generateAIReply_never_empty (.ok (some [])) "hello" []).2.2.2 (some []) rfl (by decide),
   (generateAIReply_never_empty (.ok (some [])) "hello" []).1⟩

/-! ### Message dispatcher (whatsappService section of rag.js, handleMessage) -/

/-- An inbound WhatsApp message as consumed by `handleMessage`:
`msgFrom` is `msg.from`, `body` the nullable `msg.body`. -/
structure InboundMsg where
  msgFrom : String
  body : Option String
  notifyName : Option String
deriving DecidableEq

/-- The arguments of one `saveOutgoingMessage` call fired by the dispatcher
(the unset fields default to null in the source). -/
structure OutgoingSave where
  contactPhone : String
  body : String
  aiUsed : Bool
  aiModel : Option String
  aiLatencyMs : Option Nat
deriving DecidableEq

/-- The observable effects of one `handleMessage` run: whether the incoming
persistence call was fired, whether retrieval / generation were invoked,
the successfully delivered replies in order, and the outgoing persistence
calls fired. -/
structure DispatchEffects where
  incomingSaveAttempted : Bool
  kbCalled : Bool
  genCalled : Bool
  replies : List String
  outgoingSaves : List OutgoingSave
deriving DecidableEq

/-- Environment of one `handleMessage` run: whether the org / account
context is set, the outcomes of the awaited retrieval and generation calls
(which may reject), whether `msg.reply` succeeds for a given body, and the
measured wall-clock latency. -/
structure DispatchEnv where
  hasContext : Bool
  kbResult : String → Except Unit (List KbMatch)
  genResult : String → List KbMatch → Except Unit String
  replyOk : String → Bool
  latencyMs : Nat

/-- The fixed health-check acknowledgement (rag.js line 704). -/
def pingReply : String := "pong 🏓 (Gemini AI is online)"

/-- The fixed apology sent from the catch arm (rag.js line 758). -/
def apologyReply : String := "Sorry, something went wrong on my side."

/-- The fixed model identifier stamped on AI replies (rag.js line 747). -/
def geminiModelTag : String := "gemini-2.0-flash-exp"

/-- The no-effects result of the early returns. -/
def emptyEffects : DispatchEffects := ⟨false, false, false, [], []⟩

/-- JavaScript try/catch over a computation returning its effects plus a
flag saying an exception escaped it. -/
def jsTry {α : Type} (body : α × Bool) (handler : α → α × Bool) : α × Bool :=
  if body.2 then handler body.1 else body

/-- The try body of `handleMessage` (rag.js lines 676-754): empty-body
guard, fire-and-forget incoming save when context is set, ping
short-circuit, then retrieval → generation → reply → fire-and-forget
outgoing save stamped aiUsed / model / latency.  The flag records whether
an awaited step (a reply send, retrieval or generation) rejected, in which
case control escapes to the catch arm with the effects so far. -/
def handleMessageTry (env : DispatchEnv) (msg : InboundMsg) : DispatchEffects × Bool :=
  match msg.body with
  | none => (emptyEffects, false)
  | some b =>
    if jsTrim b = "" then (emptyEffects, false)
    else if jsToLower (jsTrim b) = "ping" then
      if env.replyOk pingReply then
        if env.hasContext then
          (⟨env.hasContext, false, false, [pingReply],
            [⟨msg.msgFrom, pingReply, false, none, none⟩]⟩, false)
        else (⟨env.hasContext, false, false, [pingReply], []⟩, false)
      else (⟨env.hasContext, false, false, [], []⟩, true)
    else
      match env.kbResult (jsTrim b) with
      | Except.error _ => (⟨env.hasContext, true, false, [], []⟩, true)
      | Except.ok kbMatches =>
        match env.genResult (jsTrim b) kbMatches with
        | Except.error _ => (⟨env.hasContext, true, true, [], []⟩, true)
        | Except.ok aiReply =>
          if env.replyOk aiReply then
            if env.hasContext then
              (⟨env.hasContext, true, true, [aiReply],
                [⟨msg.msgFrom, aiReply, true, some geminiModelTag, some env.latencyMs⟩]⟩,
               false)
            else (⟨env.hasContext, true, true, [aiReply], []⟩, false)
          else (⟨env.hasContext, true, true, [], []⟩, true)

/-- The catch arm of `handleMessage` (rag.js lines 755-775): send the fixed
apology (itself awaited, so it may reject) and, when it was delivered and
context is set, fire-and-forget the apology save with aiUsed false.  The
flag records whether the awaited apology send rejected (the surrounding
inner try swallows that). -/
def handleMessageCatch (env : DispatchEnv) (msg : InboundMsg)
    (eff : DispatchEffects) : DispatchEffects × Bool :=
  if env.replyOk apologyReply then
    if env.hasContext then
      ({ eff with
          replies := eff.replies ++ [apologyReply]
          outgoingSaves := eff.outgoingSaves ++
            [⟨msg.msgFrom, apologyReply, false, none, none⟩] }, false)
    else ({ eff with replies := eff.replies ++ [apologyReply] }, false)
  else (eff, true)

/-- `handleMessage` (rag.js lines 672-776): run the try body; on an escaped
exception run the catch arm, whose own exception is swallowed by the inner
empty catch.  The flag says whether an exception reached the caller. -/
def handleMessage (env : DispatchEnv) (msg : InboundMsg) : DispatchEffects × Bool :=
  jsTry (handleMessageTry env msg)
    (fun eff => jsTry (handleMessageCatch env msg eff) (fun eff2 => (eff2, false)))

/-- C2: `handleMessage` never propagates an exception to its caller, for
any message and any outcome of the awaited steps; and whenever an exception
was raised inside the try body (retrieval, generation or a reply send) —
provided the apology transmission itself succeeds and the account context
is set — the fixed apology string is sent to the sender and recorded for
persistence as a non-generated (aiUsed = false) outbound message. -/
theorem handleMessage_never_throws (env : DispatchEnv) (msg : InboundMsg) :
    (handleMessage env msg).2 = false ∧
    (env.replyOk apologyReply = true → env.hasContext = true →
      (handleMessageTry env msg).2 = true →
      apologyReply ∈ (handleMessage env msg).1.replies ∧
        (⟨msg.msgFrom, apologyReply, false, none, none⟩ : OutgoingSave) ∈
          (handleMessage env msg).1.outgoingSaves) := by
  constructor
  · unfold handleMessage jsTry handleMessageCatch
    by_cases ht : (handleMessageTry env msg).2
    · simp only [ht, if_true]
      by_cases hr : env.replyOk apologyReply
      · simp only [hr, if_true]
        by_cases hc : env.hasContext <;> simp [hc]
      · simp [hr]
    · simp [ht]
  · intro hr hctx htrue
    simp [handleMessage, jsTry, handleMessageCatch, htrue, hr, hctx]

/-- A message with a non-ping body. -/
def msgHelloW : InboundMsg := ⟨"123@c.us", some "hello", none⟩

/-- An environment whose retrieval call rejects. -/
def envKbFailW : DispatchEnv :=
  { hasContext := true, kbResult := fun _ => Except.error (),
    genResult := fun _ _ => Except.ok "x", replyOk := fun _ => true, latencyMs := 5 }

/-- Concrete instantiation of `handleMessage_never_throws`: retrieval
rejects, the apology goes out and is recorded non-generated. -/
theorem handleMessage_never_throws_witness :
    (handleMessage envKbFailW msgHelloW).2 = false ∧
      apologyReply ∈ (handleMessage envKbFailW msgHelloW).1.replies ∧
      (⟨"123@c.us", apologyReply, false, none, none⟩ : OutgoingSave) ∈
        (handleMessage envKbFailW msgHelloW).1.outgoingSaves := by
  have h := handleMessage_never_throws envKbFailW msgHelloW
  have h2 := h.2 rfl rfl (by decide)
  exact ⟨h.1, h2.1, h2.2⟩

/-- C7: for an inbound message whose trimmed, lower-cased body equals the
sentinel "ping", the dispatcher replies with the fixed acknowledgement,
persists it as a non-generated (aiUsed = false, no model, no latency)
outbound message, and never invokes retrieval or generation. -/
theorem handleMessage_ping_short_circuit (env : DispatchEnv) (msg : InboundMsg)
    (b : String) (hb : msg.body = some b) (hping : jsToLower (jsTrim b) = "ping")
    (hreply : env.replyOk pingReply = true) (hctx : env.hasContext = true) :
    (handleMessage env msg).1.replies = [pingReply] ∧
    (handleMessage env msg).1.outgoingSaves =
      [⟨msg.msgFrom, pingReply, false, none, none⟩] ∧
    (handleMessage env msg).1.kbCalled = false ∧
    (handleMessage env msg).1.genCalled = false ∧
    (handleMessage env msg).2 = false := by
  have hne : ¬ jsTrim b = "" := by
    intro h0
    rw [h0] at hping
    exact absurd hping (by decide)
  simp [handleMessage, jsTry, handleMessageTry, hb, hne, hping, hreply, hctx]

/-- A ping message with mixed case and surrounding whitespace. -/
def msgPingW : InboundMsg := ⟨"123@c.us", some "  PiNg  ", none⟩

/-- An environment where every awaited step succeeds. -/
def envPingW : DispatchEnv :=
  { hasContext := true, kbResult := fun _ => Except.ok [],
    genResult := fun _ _ => Except.ok "x", replyOk := fun _ => true, latencyMs := 7 }

/-- Concrete instantiation of `handleMessage_ping_short_circuit`. -/
theorem handleMessage_ping_short_circuit_witness :
    (handleMessage envPingW msgPingW).1.replies = [pingReply] ∧
    (handleMessage envPingW msgPingW).1.outgoingSaves =
      [⟨"123@c.us", pingReply, false, none, none⟩] ∧
    (handleMessage envPingW msgPingW).1.kbCalled = false ∧
    (handleMessage envPingW msgPingW).1.genCalled = false ∧
    (handleMessage envPingW msgPingW).2 = false :=
  handleMessage_ping_short_circuit envPingW msgPingW "  PiNg  " rfl (by decide) rfl rfl

/-- C8: every non-ping message that reaches the generation step is
persisted with aiUsed = true, the fixed model identifier and the measured
latency, for every string the generator returns — the fixed error and
fallback strings included: the stamp does not depend on the content of the
reply. -/
theorem handleMessage_ai_save_stamped (env : DispatchEnv) (msg : InboundMsg)
    (b s : String) (kbMatches : List KbMatch)
    (hb : msg.body = some b) (hne : ¬ jsTrim b = "")
    (hnp : ¬ jsToLower (jsTrim b) = "ping")
    (hkb : env.kbResult (jsTrim b) = Except.ok kbMatches)
    (hgen : env.genResult (jsTrim b) kbMatches = Except.ok s)
    (hreply : env.replyOk s = true) (hctx : env.hasContext = true) :
    (handleMessage env msg).1.outgoingSaves =
      [⟨msg.msgFrom, s, true, some geminiModelTag, some env.latencyMs⟩] ∧
    (handleMessage env msg).1.replies = [s] := by
  simp [handleMessage, jsTry, handleMessageTry, hb, hne, hnp, hkb, hgen, hreply, hctx]

/-- An environment whose generation call returns the fixed HTTP-error
fallback string. -/
def envGenFallbackW : DispatchEnv :=
  { hasContext := true, kbResult := fun _ => Except.ok [],
    genResult := fun _ _ => Except.ok "AI Error: Unable to generate response.",
    replyOk := fun _ => true, latencyMs := 42 }

/-- Concrete instantiation of `handleMessage_ai_save_stamped`: even the
fixed generation-error string is stamped aiUsed = true with model and
latency. -/
theorem handleMessage_ai_save_stamped_witness :
    (handleMessage envGenFallbackW msgHelloW).1.outgoingSaves =
      [⟨"123@c.us", "AI Error: Unable to generate response.", true,
        some geminiModelTag, some 42⟩] ∧
    (handleMessage envGenFallbackW msgHelloW).1.replies =
      ["AI Error: Unable to generate response."] :=
  handleMessage_ai_save_stamped envGenFallbackW msgHelloW "hello"
    "AI Error: Unable to generate response." [] rfl (by decide) (by decide)
    rfl rfl rfl rfl

/-! ### Conversation store (messageStore section of rag.js) -/

/-- A `contacts` row. -/
structure Contact where
  id : Nat
  org_id : String
  wa_account_id : String
  wa_number : String
  name : Option String
  first_seen_at : Nat
  last_seen_at : Nat
deriving DecidableEq

/-- A `conversations` row. -/
structure Conversation where
  id : Nat
  org_id : String
  wa_account_id : String
  contact_id : Nat
  status : String
  created_at : Nat
  last_message_at : Option Nat
  last_message_preview : Option String
deriving DecidableEq

/-- A `messages` row as inserted by `saveOutgoingMessage` (the
`wa_message_id` field is `rawMessage?.id`, which is null for every
dispatcher call and claim-irrelevant, so it is left out). -/
structure MessageRow where
  org_id : String
  conversation_id : Nat
  wa_account_id : String
  direction : String
  sender_type : String
  body : String
  message_type : String
  ai_used : Bool
  ai_model : Option String
  ai_latency_ms : Option Nat
deriving DecidableEq

/-- The Supabase tables touched by the message store, plus a fresh-id
counter standing for uuid generation.  Timestamps (`new Date()`) are passed
in as `now` arguments. -/
structure StoreDB where
  contacts : List Contact
  conversations : List Conversation
  messages : List MessageRow
  nextId : Nat
deriving DecidableEq

/-- The contact lookup key (`org_id`, `wa_account_id`, `wa_number`). -/
def contactKey (orgId waAccountId waNumber : String) (c : Contact) : Bool :=
  c.org_id == orgId && c.wa_account_id == waAccountId && c.wa_number == waNumber

/-- The repeat-visit contact update: bump `last_seen_at` and set the name
when a truthy (non-null, non-empty) name was passed, on the row with the
given id. -/
def touchContact (now : Nat) (name : Option String) (targetId : Nat) (c : Contact) : Contact :=
  if c.id == targetId then
    { c with last_seen_at := now, name := if (jsStr name).isSome then name else c.name }
  else c

/-- `findOrCreateContact` (rag.js lines 828-892).  When a row with the key
exists, its `last_seen_at` (and name, when truthy) is updated in the table
and the previously fetched row object is returned; otherwise a fresh row is
inserted and returned.  Store faults (which the source catches and turns
into `null`) are outside this model. -/
def findOrCreateContact (now : Nat) (db : StoreDB) (orgId waAccountId waNumber : String)
    (name : Option String) : Contact × StoreDB :=
  match db.contacts.find? (contactKey orgId waAccountId waNumber) with
  | some existing =>
    (existing,
      { db with contacts := db.contacts.map (touchContact now name existing.id) })
  | none =>
    (⟨db.nextId, orgId, waAccountId, waNumber, name, now, now⟩,
      { db with
        contacts := db.contacts ++ [⟨db.nextId, orgId, waAccountId, waNumber, name, now, now⟩]
        nextId := db.nextId + 1 })

/-- The conversation lookup key (`org_id`, `wa_account_id`, `contact_id`). -/
def conversationKey (orgId waAccountId : String) (contactId : Nat) (c : Conversation) : Bool :=
  c.org_id == orgId && c.wa_account_id == waAccountId && c.contact_id == contactId

/-- `findOrCreateConversation` (rag.js lines 901-948): return the existing
thread or insert a fresh one with status `open`. -/
def findOrCreateConversation (now : Nat) (db : StoreDB) (orgId waAccountId : String)
    (contactId : Nat) : Conversation × StoreDB :=
  match db.conversations.find? (conversationKey orgId waAccountId contactId) with
  | some existing => (existing, db)
  | none =>
    (⟨db.nextId, orgId, waAccountId, contactId, "open", now, none, none⟩,
      { db with
        conversations := db.conversations ++
          [⟨db.nextId, orgId, waAccountId, contactId, "open", now, none, none⟩]
        nextId := db.nextId + 1 })

/-- `updateConversationLastMessage` (rag.js lines 956-978): stamp the
preview (`messageBody?.substring(0, 100) || '(no text)'`) and the new
timestamp on the conversation row. -/
def updateConversationLastMessage (now : Nat) (db : StoreDB) (conversationId : Nat)
    (messageBody : String) : StoreDB :=
  { db with conversations := db.conversations.map (fun c =>
      if c.id == conversationId then
        { c with
          last_message_at := some now
          last_message_preview :=
            some (if messageBody.take 100 = "" then "(no text)" else messageBody.take 100) }
      else c) }

/-- `saveOutgoingMessage` (rag.js lines 1054-1113): find-or-create the
contact (with a null name) and conversation, insert the outbound message
row — `sender_type` is `'bot'` when `aiUsed` and `'agent'` otherwise — then
update the conversation preview. -/
def saveOutgoingMessage (now : Nat) (db : StoreDB)
    (orgId waAccountId contactPhone body : String)
    (aiUsed : Bool) (aiModel : Option String) (aiLatencyMs : Option Nat) :
    MessageRow × StoreDB :=
  let r1 := findOrCreateContact now db orgId waAccountId contactPhone none
  let r2 := findOrCreateConversation now r1.2 orgId waAccountId r1.1.id
  let row : MessageRow :=
    { org_id := orgId, conversation_id := r2.1.id, wa_account_id := waAccountId,
      direction := "outbound",
      sender_type := if aiUsed then "bot" else "agent",
      body := body, message_type := "text",
      ai_used := aiUsed, ai_model := aiModel, ai_latency_ms := aiLatencyMs }
  (row, updateConversationLastMessage now
    { r2.2 with messages := r2.2.messages ++ [row] } r2.1.id body)

theorem touchContact_key (orgId waAccountId waNumber : String) (now : Nat)
    (name : Option String) (i : Nat) (c : Contact) :
    contactKey orgId waAccountId waNumber (touchContact now name i c) =
      contactKey orgId waAccountId waNumber c := by
  unfold touchContact
  split <;> rfl

theorem touchContact_id (now : Nat) (name : Option String) (i : Nat) (c : Contact) :
    (touchContact now name i c).id = c.id := by
  unfold touchContact
  split <;> rfl

theorem touchContact_eq_of_id (now : Nat) (name : Option String) (i : Nat)
    (c : Contact) (h : c.id = i) :
    touchContact now name i c =
      { c with
        last_seen_at := now
        name := if (jsStr name).isSome then name else c.name } := by
  unfold touchContact
  rw [if_pos (by simp [h])]

theorem find?_touchContact (l : List Contact) (k1 k2 k3 : String) (now : Nat)
    (name : Option String) (i : Nat) :
    (l.map (touchContact now name i)).find? (contactKey k1 k2 k3) =
      (l.find? (contactKey k1 k2 k3)).map (touchContact now name i) := by
  rw [List.find?_map]
  have hfun : contactKey k1 k2 k3 ∘ touchContact now name i = contactKey k1 k2 k3 := by
    funext c
    exact touchContact_key k1 k2 k3 now name i c
  rw [hfun]

theorem find?_append_none {α : Type} (p : α → Bool) (l1 l2 : List α)
    (h : l1.find? p = none) : (l1 ++ l2).find? p = l2.find? p := by
  rw [List.find?_append, h, Option.none_or]

theorem findOrCreateContact_found (now : Nat) (db : StoreDB) (k1 k2 k3 : String)
    (name : Option String) (ex : Contact)
    (h : db.contacts.find? (contactKey k1 k2 k3) = some ex) :
    findOrCreateContact now db k1 k2 k3 name =
      (ex, { db with contacts := db.contacts.map (touchContact now name ex.id) }) := by
  unfold findOrCreateContact
  rw [h]

theorem findOrCreateContact_notfound (now : Nat) (db : StoreDB) (k1 k2 k3 : String)
    (name : Option String)
    (h : db.contacts.find? (contactKey k1 k2 k3) = none) :
    findOrCreateContact now db k1 k2 k3 name =
      (⟨db.nextId, k1, k2, k3, name, now, now⟩,
        { db with
          contacts := db.contacts ++ [⟨db.nextId, k1, k2, k3, name, now, now⟩]
          nextId := db.nextId + 1 }) := by
  unfold findOrCreateContact
  rw [h]

/-- C9: `findOrCreateContact` is idempotent on its key: a second call with
the same (organization, account, remote address) returns a contact with the
same id, leaves the number of contact rows unchanged (no duplicate is
created), and the stored row with that id has its `last_seen_at` bumped to
the second call's timestamp and its name updated whenever a truthy name was
passed. -/
theorem findOrCreateContact_idempotent (now1 now2 : Nat) (db : StoreDB)
    (orgId waAccountId waNumber : String) (name1 name2 : Option String) :
    ((findOrCreateContact now2
        (findOrCreateContact now1 db orgId waAccountId waNumber name1).2
        orgId waAccountId waNumber name2).1.id =
      (findOrCreateContact now1 db orgId waAccountId waNumber name1).1.id) ∧
    ((findOrCreateContact now2
        (findOrCreateContact now1 db orgId waAccountId waNumber name1).2
        orgId waAccountId waNumber name2).2.contacts.length =
      (findOrCreateContact now1 db orgId waAccountId waNumber name1).2.contacts.length) ∧
    (∃ c ∈ (findOrCreateContact now2
        (findOrCreateContact now1 db orgId waAccountId waNumber name1).2
        orgId waAccountId waNumber name2).2.contacts,
      c.id = (findOrCreateContact now1 db orgId waAccountId waNumber name1).1.id ∧
      c.last_seen_at = now2 ∧ ((jsStr name2).isSome → c.name = name2)) := by
  rcases hfind : db.contacts.find? (contactKey orgId waAccountId waNumber) with _ | ex
  · -- first call inserts a fresh row
    rw [findOrCreateContact_notfound now1 db orgId waAccountId waNumber name1 hfind]
    have hnew : (db.contacts ++
        [(⟨db.nextId, orgId, waAccountId, waNumber, name1, now1, now1⟩ : Contact)]).find?
          (contactKey orgId waAccountId waNumber) =
        some ⟨db.nextId, orgId, waAccountId, waNumber, name1, now1, now1⟩ := by
      rw [find?_append_none _ _ _ hfind]
      simp [contactKey]
    rw [findOrCreateContact_found now2 _ orgId waAccountId waNumber name2 _ hnew]
    refine ⟨rfl, by simp, ?_⟩
    refine ⟨touchContact now2 name2 db.nextId
      ⟨db.nextId, orgId, waAccountId, waNumber, name1, now1, now1⟩, ?_, ?_, ?_, ?_⟩
    · exact List.mem_map_of_mem _ (by simp)
    · exact touchContact_id now2 name2 db.nextId _
    · rw [touchContact_eq_of_id now2 name2 db.nextId _ rfl]
    · intro h
      rw [touchContact_eq_of_id now2 name2 db.nextId _ rfl]
      simp [h]
  · -- first call finds an existing row
    rw [findOrCreateContact_found now1 db orgId waAccountId waNumber name1 ex hfind]
    have hsnd : (db.contacts.map (touchContact now1 name1 ex.id)).find?
        (contactKey orgId waAccountId waNumber) =
        some (touchContact now1 name1 ex.id ex) := by
      rw [find?_touchContact, hfind]
      rfl
    rw [findOrCreateContact_found now2 _ orgId waAccountId waNumber name2 _ hsnd]
    refine ⟨touchContact_id now1 name1 ex.id ex, by simp, ?_⟩
    refine ⟨touchContact now2 name2 (touchContact now1 name1 ex.id ex).id
      (touchContact now1 name1 ex.id ex), ?_, ?_, ?_, ?_⟩
    · exact List.mem_map_of_mem _
        (List.mem_map_of_mem _ (List.mem_of_find?_eq_some hfind))
    · rw [touchContact_id, touchContact_id]
    · rw [touchContact_eq_of_id now2 name2 _ _ rfl]
    · intro h
      rw [touchContact_eq_of_id now2 name2 _ _ rfl]
      simp [h]

/-- Concrete instantiation of `findOrCreateContact_idempotent`: an initially
empty store, a first call with no name and a second call with a name. -/
theorem findOrCreateContact_idempotent_witness :
    ((findOrCreateContact 2
        (findOrCreateContact 1 ⟨[], [], [], 0⟩ "org" "acc" "123@c.us" none).2
        "org" "acc" "123@c.us" (some "Bob")).1.id =
      (findOrCreateContact 1 ⟨[], [], [], 0⟩ "org" "acc" "123@c.us" none).1.id) ∧
    ((findOrCreateContact 2
        (findOrCreateContact 1 ⟨[], [], [], 0⟩ "org" "acc" "123@c.us" none).2
        "org" "acc" "123@c.us" (some "Bob")).2.contacts.length =
      (findOrCreateContact 1 ⟨[], [], [], 0⟩ "org" "acc" "123@c.us" none).2.contacts.length) ∧
    (∃ c ∈ (findOrCreateContact 2
        (findOrCreateContact 1 ⟨[], [], [], 0⟩ "org" "acc" "123@c.us" none).2
        "org" "acc" "123@c.us" (some "Bob")).2.contacts,
      c.id = (findOrCreateContact 1 ⟨[], [], [], 0⟩ "org" "acc" "123@c.us" none).1.id ∧
      c.last_seen_at = 2 ∧ ((jsStr (some "Bob")).isSome → c.name = some "Bob")) :=
  findOrCreateContact_idempotent 1 2 ⟨[], [], [], 0⟩ "org" "acc" "123@c.us" none (some "Bob")

/-- C10: `saveOutgoingMessage` stores `sender_type = "agent"` exactly when
`aiUsed` is false and `"bot"` exactly when it is true; and the dispatcher's
two automatic aiUsed = false messages — the ping acknowledgement and the
post-exception apology — are therefore persisted as the human-agent class,
not as `"bot"`. -/
theorem saveOutgoingMessage_sender_type :
    (∀ now db orgId waAccountId contactPhone body aiUsed aiModel aiLatencyMs,
      ((saveOutgoingMessage now db orgId waAccountId contactPhone body aiUsed
          aiModel aiLatencyMs).1.sender_type = "agent" ↔ aiUsed = false) ∧
      ((saveOutgoingMessage now db orgId waAccountId contactPhone body aiUsed
          aiModel aiLatencyMs).1.sender_type = "bot" ↔ aiUsed = true)) ∧
    (∀ env msg b, msg.body = some b → jsToLower (jsTrim b) = "ping" →
      env.replyOk pingReply = true → env.hasContext = true →
      ∀ s ∈ (handleMessage env msg).1.outgoingSaves, s.aiUsed = false) ∧
    (∀ env msg, (handleMessageTry env msg).2 = true →
      env.replyOk apologyReply = true → env.hasContext = true →
      ∃ s ∈ (handleMessage env msg).1.outgoingSaves,
        s.body = apologyReply ∧ s.aiUsed = false) := by
  refine ⟨?_, ?_, ?_⟩
  · intro now db orgId waAccountId contactPhone body aiUsed aiModel aiLatencyMs
    cases aiUsed <;> simp [saveOutgoingMessage]
  · intro env msg b hb hping hreply hctx
    have hne : ¬ jsTrim b = "" := by
      intro h0
      rw [h0] at hping
      exact absurd hping (by decide)
    simp [handleMessage, jsTry, handleMessageTry, hb, hne, hping, hreply, hctx]
  · intro env msg htrue hr hctx
    refine ⟨⟨msg.msgFrom, apologyReply, false, none, none⟩, ?_, rfl, rfl⟩
    simp [handleMessage, jsTry, handleMessageCatch, htrue, hr, hctx]

/-- Concrete instantiation of `saveOutgoingMessage_sender_type`: a
non-generated save persists as `"agent"`, and the ping acknowledgement save
has `aiUsed = false`. -/
theorem saveOutgoingMessage_sender_type_witness :
    ((saveOutgoingMessage 0 ⟨[], [], [], 0⟩ "org" "acc" "123@c.us" "pong" false
        none none).1.sender_type = "agent") ∧
    (∀ s ∈ (handleMessage envPingW msgPingW).1.outgoingSaves, s.aiUsed = false) :=
  ⟨(saveOutgoingMessage_sender_type.1 0 ⟨[], [], [], 0⟩ "org" "acc" "123@c.us"
      "pong" false none none).1.mpr rfl,
   saveOutgoingMessage_sender_type.2.1 envPingW msgPingW "  PiNg  " rfl (by decide) rfl rfl⟩

/-! ### Session lifecycle: logout teardown (whatsappService section of rag.js) -/

/-- Actions performed by the logout teardown, in the order the source runs
them. -/
inductive LogoutAction where
  | destroyClient
  | graceDelay
  | cleanupDirs
  | reinitDelay
  | initAttempt
deriving DecidableEq

/-- Phases of the logout teardown.  `resumed` and `errored` are the two
terminal phases: `resumed` means `client.initialize()` returned and the
restarted transport will drive the connected / pending-pairing path again;
`errored` means reinitialization failed and the error state was broadcast. -/
inductive LogoutPhase where
  | destroying
  | graceWait
  | cleanup
  | reinitWait
  | initializing
  | resumed
  | errored
deriving DecidableEq

/-- A status broadcast through `setWaState` (the `qrDataUrl` payload is
null on every broadcast modelled here). -/
structure WaStatus where
  connected : Bool
  lastError : Option String
deriving DecidableEq

/-- Outcomes of the external calls of one logout teardown: whether
`client.destroy()` rejects (swallowed either way), whether the directory
cleanup throws (both branches schedule the same reinit timer), and whether
`client.initialize()` rejects, with its error message. -/
structure LogoutEnv where
  destroyThrows : Bool
  cleanupThrows : Bool
  initThrows : Bool
  initErrMsg : String
deriving DecidableEq

/-- The state of one logout teardown: current phase, actions performed so
far, and status broadcasts emitted so far. -/
structure LogoutState where
  phase : LogoutPhase
  trace : List LogoutAction
  broadcasts : List WaStatus
deriving DecidableEq

/-- One step of `handleLogout` (rag.js lines 525-581), with the two
`setTimeout` delays (5000 ms and 2000 ms) modelled as explicit steps.
Destroy rejections are swallowed by their own try/catch; a cleanup failure
takes the catch branch, which schedules the same reinitialization timer as
the normal branch; a reinitialization failure broadcasts the error state
with the failure message recorded.  The two terminal phases are fixed
points: the source installs no retry. -/
def handleLogoutStep (env : LogoutEnv) (s : LogoutState) : LogoutState :=
  match s.phase with
  | .destroying =>
    if env.destroyThrows then
      { s with phase := .graceWait, trace := s.trace ++ [.destroyClient] }
    else
      { s with phase := .graceWait, trace := s.trace ++ [.destroyClient] }
  | .graceWait => { s with phase := .cleanup, trace := s.trace ++ [.graceDelay] }
  | .cleanup =>
    if env.cleanupThrows then
      { s with phase := .reinitWait, trace := s.trace ++ [.cleanupDirs] }
    else
      { s with phase := .reinitWait, trace := s.trace ++ [.cleanupDirs] }
  | .reinitWait => { s with phase := .initializing, trace := s.trace ++ [.reinitDelay] }
  | .initializing =>
    if env.initThrows then
      { s with
        phase := .errored
        trace := s.trace ++ [.initAttempt]
        broadcasts := s.broadcasts ++
          [⟨false, some ("Reinitialization failed: " ++ env.initErrMsg)⟩] }
    else { s with phase := .resumed, trace := s.trace ++ [.initAttempt] }
  | .resumed => s
  | .errored => s

/-- The `disconnected` handler (rag.js lines 497-508): broadcast the
disconnect with its reason, and enter the logout teardown exactly when the
reason is the `LOGOUT` sentinel. -/
def onDisconnected (reason : String) : WaStatus × Option LogoutState :=
  (⟨false, some reason⟩,
   if reason == "LOGOUT" then some ⟨.destroying, [], []⟩ else none)

theorem handleLogoutStep_fixed (env : LogoutEnv) (s : LogoutState)
    (h : s.phase = .resumed ∨ s.phase = .errored) : handleLogoutStep env s = s := by
  unfold handleLogoutStep
  rcases h with h | h <;> rw [h]

theorem handleLogoutStep_iterate_fixed (env : LogoutEnv) (k : Nat) (s : LogoutState)
    (h : s.phase = .resumed ∨ s.phase = .errored) :
    (handleLogoutStep env)^[k] s = s := by
  induction k with
  | zero => rfl
  | succ k ih => rw [Function.iterate_succ_apply, handleLogoutStep_fixed env s h, ih]

theorem handleLogout_five_steps (env : LogoutEnv) :
    (handleLogoutStep env)^[5] ⟨.destroying, [], []⟩ =
      if env.initThrows then
        ⟨.errored,
          [.destroyClient, .graceDelay, .cleanupDirs, .reinitDelay, .initAttempt],
          [⟨false, some ("Reinitialization failed: " ++ env.initErrMsg)⟩]⟩
      else
        ⟨.resumed,
          [.destroyClient, .graceDelay, .cleanupDirs, .reinitDelay, .initAttempt],
          []⟩ := by
  rcases env with ⟨d, c, i, m⟩
  cases d <;> cases c <;> cases i <;> rfl

/-- C1: after a `disconnected` event whose reason is the `LOGOUT` sentinel,
the teardown performs destroy → first fixed delay → best-effort directory
cleanup → second fixed delay → exactly one reinitialization attempt, and
from step 5 on (delays modelled as steps) it is settled for every later
step count: in `resumed` when reinitialization succeeded, and in `errored`
— with the failure recorded and broadcast — when it failed.  It is never
stuck in a logging-out phase and never attempts reinitialization a second
time, whatever the destroy / cleanup / reinitialization outcomes. -/
theorem handleLogout_settles (env : LogoutEnv) (reason : String)
    (hreason : reason = "LOGOUT") :
    ∃ s0, (onDisconnected reason).2 = some s0 ∧
      ∀ n, 5 ≤ n →
        ((handleLogoutStep env)^[n] s0).trace =
          [.destroyClient, .graceDelay, .cleanupDirs, .reinitDelay, .initAttempt] ∧
        (((handleLogoutStep env)^[n] s0).phase = .resumed ∨
          ((handleLogoutStep env)^[n] s0).phase = .errored) ∧
        (env.initThrows = true →
          ((handleLogoutStep env)^[n] s0).phase = .errored ∧
            (⟨false, some ("Reinitialization failed: " ++ env.initErrMsg)⟩ : WaStatus) ∈
              ((handleLogoutStep env)^[n] s0).broadcasts) ∧
        (env.initThrows = false →
          ((handleLogoutStep env)^[n] s0).phase = .resumed) ∧
        ((handleLogoutStep env)^[n] s0).trace.count .initAttempt = 1 := by
  subst hreason
  refine ⟨⟨.destroying, [], []⟩, rfl, ?_⟩
  intro n hn
  obtain ⟨k, rfl⟩ : ∃ k, n = k + 5 := ⟨n - 5, by omega⟩
  rw [Function.iterate_add_apply, handleLogout_five_steps env]
  rcases hi : env.initThrows with _ | _
  · rw [if_neg (by decide)]
    rw [handleLogoutStep_iterate_fixed env k _ (Or.inl rfl)]
    refine ⟨rfl, Or.inl rfl, ?_, fun _ => rfl, rfl⟩
    intro hcontra
    exact absurd hcontra (by decide)
  · rw [if_pos rfl]
    rw [handleLogoutStep_iterate_fixed env k _ (Or.inr rfl)]
    refine ⟨rfl, Or.inr rfl, fun _ => ⟨rfl, by simp⟩, ?_, rfl⟩
    intro hcontra
    exact absurd hcontra (by decide)

/-- Concrete instantiation of `handleLogout_settles`: a LOGOUT disconnect
with a failing reinitialization. -/
theorem handleLogout_settles_witness :
    ∃ s0, (onDisconnected "LOGOUT").2 = some s0 ∧
      ∀ n, 5 ≤ n →
        ((handleLogoutStep ⟨false, false, true, "boom"⟩)^[n] s0).trace =
          [.destroyClient, .graceDelay, .cleanupDirs, .reinitDelay, .initAttempt] ∧
        (((handleLogoutStep ⟨false, false, true, "boom"⟩)^[n] s0).phase = .resumed ∨
          ((handleLogoutStep ⟨false, false, true, "boom"⟩)^[n] s0).phase = .errored) ∧
        ((⟨false, false, true, "boom"⟩ : LogoutEnv).initThrows = true →
          ((handleLogoutStep ⟨false, false, true, "boom"⟩)^[n] s0).phase = .errored ∧
            (⟨false, some ("Reinitialization failed: " ++ "boom")⟩ : WaStatus) ∈
              ((handleLogoutStep ⟨false, false, true, "boom"⟩)^[n] s0).broadcasts) ∧
        ((⟨false, false, true, "boom"⟩ : LogoutEnv).initThrows = false →
          ((handleLogoutStep ⟨false, false, true, "boom"⟩)^[n] s0).phase = .resumed) ∧
        ((handleLogoutStep ⟨false, false, true, "boom"⟩)^[n] s0).trace.count
          .initAttempt = 1 :=
  handleLogout_settles ⟨false, false, true, "boom"⟩ "LOGOUT" rfl

end WaModel
